import Mathlib

/-!
Verification of the frame-presentation and startup-synchronization core of
the `flutter-rs` desktop embedder, as a shallow embedding of the Rust
source into Lean.

The embedding covers:
* `flutter-glutin/src/context.rs` — the `Context` wrapper around a
  possibly-current GL context (`make_current`, `make_not_current`,
  `present`, `resize`);
* `flutter-sctk/src/application.rs` — the `ImplicitWindowStartupSynchronizer`,
  the `configure` window handler, `maybe_send_startup_pending_configure`,
  `notify_display_update`, and the output handlers;
* `flutter-sctk/src/handler.rs` — `SctkOpenGLHandler` (`present`,
  `fbo_with_frame_info_callback`) and `SctkCompositorHandler`
  (`present_view`, `create_backing_store`, `collect_backing_store`);
* `flutter-engine/src/channel/platform_message.rs` — the
  `PlatformMessageResponseHandle` one-shot token and the
  `PlatformMessage → FlutterPlatformMessage` conversion.

Native calls (EGL / OpenGL / the engine ABI) are modelled as explicit
oracle inputs and effect lists: each embedded function returns, next to its
Rust return value, the list of native calls it performed, and takes the
success/failure of each fallible native call as an input.
-/

namespace FlutterRS

/-! ## flutter-glutin: `Context` (context.rs)

The Rust `Context` holds `context : Option<PossiblyCurrentContext>`.
We track two booleans: whether the `Option` slot is occupied
(`hasContext`), and whether the wrapped native context is actually bound
current to the surface on the calling thread (`isCurrent`).  The latter is
native EGL state: `swap_buffers` (used by `present`) can only succeed when
the surface is bound to the calling thread's current context (EGL
`eglSwapBuffers` fails with `EGL_BAD_SURFACE` otherwise), which is what
the model's `present` encodes.  Every fallible native call additionally
takes a `nativeOk` input covering all other failure modes. -/

structure Context where
  hasContext : Bool
  isCurrent : Bool
deriving DecidableEq, Fintype, Repr

/-- `Context::make_current`: `match self.context.as_ref() { Some(ctx) =>
ctx.make_current(&self.surface).is_ok(), None => false }`.  On native
success the context becomes current; on native failure the previous
binding is untouched and the slot keeps its context. -/
def Context.make_current (s : Context) (nativeOk : Bool) : Context × Bool :=
  if s.hasContext then
    if nativeOk then ({ s with isCurrent := true }, true)
    else (s, false)
  else (s, false)

/-- `Context::make_not_current`: `if let Some(ctx) = self.context.take()`
— the slot is emptied; if the native `make_not_current` succeeds the
context is put back (`treat_as_possibly_current`) and `true` is returned,
otherwise the taken context is dropped (`if let Ok` discards the error
case together with the context) and the slot stays empty. -/
def Context.make_not_current (s : Context) (nativeOk : Bool) : Context × Bool :=
  if s.hasContext then
    if nativeOk then ({ hasContext := true, isCurrent := false }, true)
    else ({ hasContext := false, isCurrent := s.isCurrent }, false)
  else (s, false)

/-- `Context::present`: `match self.context.as_ref() { Some(ctx) =>
self.surface.swap_buffers(ctx).is_ok(), None => false }`.  The native
swap can only succeed while the context is current (EGL semantics); the
`nativeOk` input covers the remaining native failure modes. -/
def Context.present (s : Context) (nativeOk : Bool) : Context × Bool :=
  if s.hasContext then (s, nativeOk && s.isCurrent) else (s, false)

/-- `Context::resize`: `if let Some(ctx) = self.context.as_ref() { ... }`
— no change to the slot or to currency. -/
def Context.resize (s : Context) : Context := s

/-- One call into the `Context` API, with the would-be outcome of the
underlying native call as data. -/
inductive GlOp
  | makeCurrent (nativeOk : Bool)
  | makeNotCurrent (nativeOk : Bool)
  | presentOp (nativeOk : Bool)
  | resizeOp
deriving DecidableEq, Repr

/-- Run one `Context` call, returning the new state and the Rust-level
`bool` result (`resize` returns unit; we report `true`). -/
def glStep (s : Context) : GlOp → Context × Bool
  | .makeCurrent ok => s.make_current ok
  | .makeNotCurrent ok => s.make_not_current ok
  | .presentOp ok => s.present ok
  | .resizeOp => (s.resize, true)

/-- Run a sequence of `Context` calls, keeping only the final state. -/
def glRun (s : Context) : List GlOp → Context
  | [] => s
  | op :: rest => glRun (glStep s op).1 rest

/-- `true` when no `make_current` call in the trace (run from `s`)
returns `true`. -/
def noSuccessfulMakeCurrent (s : Context) : List GlOp → Bool
  | [] => true
  | op :: rest =>
    (match op with
     | .makeCurrent _ => !(glStep s op).2
     | _ => true) && noSuccessfulMakeCurrent (glStep s op).1 rest

/-- The state can report a successful present only when the slot is
occupied and the context is current. -/
def canPresent (s : Context) : Bool :=
  s.hasContext && s.isCurrent

/-! ## flutter-sctk: startup synchronizer and application state
(application.rs)

`WindowConfigure` is the windowing-protocol configure payload.  The
handlers treat it opaquely (it is only stored and passed through), so the
model keeps just the suggested new size; the remaining fields play no
role in any handler. -/

structure WindowConfigure where
  newWidth : Option Nat
  newHeight : Option Nat
deriving DecidableEq, Repr

/-- The display-update kind passed to `FlutterEngine::notify_display_update`.
Modelled from the spec: the payload carries a "startup-vs-incremental
kind"; the enum itself lives in the engine ffi crate, outside the
embedded sources. -/
inductive FlutterEngineDisplaysUpdateType
  | Startup
  | Incremental
deriving DecidableEq, Repr

/-- `ImplicitWindowStartupSynchronizer` (application.rs): the single
buffered configure (with its protocol serial) and the engine-running
flag.  `#[derive(Default)]` gives `pending_configure = None`,
`is_engine_running = false`. -/
structure ImplicitWindowStartupSynchronizer where
  pending_configure : Option (WindowConfigure × Nat)
  is_engine_running : Bool
deriving DecidableEq, Repr

/-- `ImplicitWindowStartupSynchronizer::new` = `Default::default()`. -/
def ImplicitWindowStartupSynchronizer.new : ImplicitWindowStartupSynchronizer :=
  { pending_configure := none, is_engine_running := false }

/-- `ImplicitWindowStartupSynchronizer::set_pending_configure`. -/
def ImplicitWindowStartupSynchronizer.set_pending_configure
    (sync : ImplicitWindowStartupSynchronizer)
    (configure : WindowConfigure) (serial : Nat) :
    ImplicitWindowStartupSynchronizer :=
  { sync with pending_configure := some (configure, serial) }

/-- The observable part of `SctkApplicationState`: the keys of the
`windows` map (xdg-toplevel object ids, in iteration order), the startup
synchronizer, plus two effect logs recording the outward calls the
handlers make — `window.configure(conn, configure, serial)` calls
delivered to windows, and the update types of
`engine.notify_display_update` calls delivered to the engine. -/
structure SctkApplicationState where
  windows : List Nat
  startup_synchronizer : ImplicitWindowStartupSynchronizer
  forwardedConfigures : List (Nat × WindowConfigure × Nat)
  displayUpdates : List FlutterEngineDisplaysUpdateType
deriving DecidableEq, Repr

/-- `SctkApplicationState::notify_display_update`: returns early when the
engine is not running; otherwise builds the display list from the output
state (the list contents are not modelled; the claims concern the update
type) and calls `engine.notify_display_update` with
`FlutterEngineDisplaysUpdateType::Startup`. -/
def SctkApplicationState.notify_display_update (s : SctkApplicationState) :
    SctkApplicationState :=
  if s.startup_synchronizer.is_engine_running then
    { s with displayUpdates :=
        s.displayUpdates ++ [FlutterEngineDisplaysUpdateType.Startup] }
  else s

/-- `SctkApplicationState::maybe_send_startup_pending_configure`: sets
`is_engine_running`, calls `notify_display_update`, takes the pending
configure (the slot is emptied by `take()` in every case), and — when one
was buffered — forwards it to the implicit window
(`get_implicit_window_mut` = `windows.iter_mut().last()`). -/
def SctkApplicationState.maybe_send_startup_pending_configure
    (s : SctkApplicationState) : SctkApplicationState :=
  let s1 : SctkApplicationState :=
    { s with startup_synchronizer :=
        { s.startup_synchronizer with is_engine_running := true } }
  let s2 := s1.notify_display_update
  match s2.startup_synchronizer.pending_configure with
  | none => s2
  | some (configure, serial) =>
    let s3 : SctkApplicationState :=
      { s2 with startup_synchronizer :=
          { s2.startup_synchronizer with pending_configure := none } }
    match s3.windows.getLast? with
    | none => s3
    | some wid =>
      { s3 with forwardedConfigures :=
          s3.forwardedConfigures ++ [(wid, configure, serial)] }

/-- `WindowHandler::configure` for `SctkApplicationState`: events for an
xdg-toplevel id missing from the `windows` map are ignored (with a
warning); otherwise the configure is forwarded to the window when the
engine is running and buffered in the synchronizer when it is not. -/
def SctkApplicationState.configure (s : SctkApplicationState)
    (xdgToplevelId : Nat) (configure : WindowConfigure) (serial : Nat) :
    SctkApplicationState :=
  if xdgToplevelId ∈ s.windows then
    if s.startup_synchronizer.is_engine_running then
      { s with forwardedConfigures :=
          s.forwardedConfigures ++ [(xdgToplevelId, configure, serial)] }
    else
      { s with startup_synchronizer :=
          s.startup_synchronizer.set_pending_configure configure serial }
  else s

/-- `OutputHandler::new_output`: logs and calls `notify_display_update`. -/
def SctkApplicationState.new_output (s : SctkApplicationState) :
    SctkApplicationState :=
  s.notify_display_update

/-- `OutputHandler::update_output`: logs and calls `notify_display_update`. -/
def SctkApplicationState.update_output (s : SctkApplicationState) :
    SctkApplicationState :=
  s.notify_display_update

/-- `OutputHandler::output_destroyed`: logs and calls
`notify_display_update`. -/
def SctkApplicationState.output_destroyed (s : SctkApplicationState) :
    SctkApplicationState :=
  s.notify_display_update

/-- The application-level events that reach the modelled handlers.
`engineStarted` is the immediate-timer callback in `SctkApplication::run`
observing `engine.run()` succeed and then calling
`maybe_send_startup_pending_configure`. -/
inductive AppOp
  | configureEvent (xdgToplevelId : Nat) (c : WindowConfigure) (serial : Nat)
  | engineStarted
  | newOutput
  | updateOutput
  | outputDestroyed
deriving DecidableEq, Repr

/-- Dispatch one application event. -/
def appStep (s : SctkApplicationState) : AppOp → SctkApplicationState
  | .configureEvent xdgToplevelId c serial => s.configure xdgToplevelId c serial
  | .engineStarted => s.maybe_send_startup_pending_configure
  | .newOutput => s.new_output
  | .updateOutput => s.update_output
  | .outputDestroyed => s.output_destroyed

/-- Run a sequence of application events. -/
def appRun (s : SctkApplicationState) : List AppOp → SctkApplicationState
  | [] => s
  | op :: rest => appRun (appStep s op) rest

/-- The state built by `SctkApplication::new`: the `windows` map holds
exactly the implicit window, the synchronizer is `new()` (not running, no
pending configure), and no outward calls have been made. -/
def initialAppState (implicitWindowId : Nat) : SctkApplicationState :=
  { windows := [implicitWindowId]
  , startup_synchronizer := ImplicitWindowStartupSynchronizer.new
  , forwardedConfigures := []
  , displayUpdates := [] }

/-- A concrete state used by witnesses: engine not running, an earlier
configure (100x100, serial 3) already buffered. -/
def sampleStateEarlierPending : SctkApplicationState :=
  { windows := [5]
  , startup_synchronizer :=
      { pending_configure := some (⟨some 100, some 100⟩, 3)
      , is_engine_running := false }
  , forwardedConfigures := []
  , displayUpdates := [] }

/-- A concrete state used by witnesses: engine not running, a configure
of 500x400 with serial 7 buffered (the spec scenario). -/
def sampleStatePending500x400 : SctkApplicationState :=
  { windows := [5]
  , startup_synchronizer :=
      { pending_configure := some (⟨some 500, some 400⟩, 7)
      , is_engine_running := false }
  , forwardedConfigures := []
  , displayUpdates := [] }

/-! ## flutter-sctk: render handlers (handler.rs)

OpenGL calls are recorded as an effect list; the outcomes of the fallible
collaborators (the window's frame callbacks, the shared `Context`) are
oracle inputs.  Floating-point sizes (`f64` in the source) are modelled
as rationals; `f64::round` rounds half away from zero, which agrees with
Mathlib's `round` on the nonnegative values sizes take.  Rust `as`
casts from floats saturate at the integer type's bounds. -/

def f64_as_i32 (x : ℤ) : ℤ := max (-(2 ^ 31)) (min (2 ^ 31 - 1) x)

def f64_as_u32 (x : ℤ) : ℕ := (min (2 ^ 32 - 1) (max 0 x)).toNat

def gl_RGBA8 : Nat := 0x8058
def gl_RGBA : Nat := 0x1908
def gl_UNSIGNED_BYTE : Nat := 0x1401
def gl_NEAREST : Nat := 0x2600
def gl_CLAMP_TO_EDGE : Nat := 0x812F
def gl_TEXTURE_2D : Nat := 0x0DE1
def gl_TEXTURE_MAG_FILTER : Nat := 0x2800
def gl_TEXTURE_MIN_FILTER : Nat := 0x2801
def gl_TEXTURE_WRAP_S : Nat := 0x2802
def gl_TEXTURE_WRAP_T : Nat := 0x2803
def gl_FRAMEBUFFER : Nat := 0x8D40
def gl_READ_FRAMEBUFFER : Nat := 0x8CA8
def gl_DRAW_FRAMEBUFFER : Nat := 0x8CA9
def gl_COLOR_ATTACHMENT0 : Nat := 0x8CE0
def gl_COLOR_BUFFER_BIT : Nat := 0x4000
def gl_DEPTH_BUFFER_BIT : Nat := 0x100
def gl_STENCIL_BUFFER_BIT : Nat := 0x400
def gl_SCISSOR_TEST : Nat := 0x0C11

/-- `const WINDOW_FRAMEBUFFER_ID: u32 = 0` (handler.rs). -/
def WINDOW_FRAMEBUFFER_ID : Nat := 0

/-- One recorded OpenGL call. -/
inductive GlCall
  | genTextures (id : Nat)
  | genFramebuffers (id : Nat)
  | bindFramebufferTarget (target : Nat) (id : Nat)
  | bindTexture (target : Nat) (id : Nat)
  | texParameteri (target pname param : Nat)
  | texImage2D (target level internalformat : Nat) (width height : ℤ)
      (border fmt ty : Nat)
  | framebufferTexture2D (target attachment textarget texture level : Nat)
  | disableCap (cap : Nat)
  | blitFramebuffer (srcX0 srcY0 srcX1 srcY1 dstX0 dstY0 dstX1 dstY1 : ℤ)
      (mask filter : Nat)
  | clearColorCall
  | clearCall (mask : Nat)
  | deleteFramebuffers (id : Nat)
  | deleteTextures (id : Nat)
  | dropRawUserData
deriving DecidableEq, Repr

/-- `FlutterOpenGLBackingStoreFramebuffer` (engine ffi): the opaque
user-data handed to the native layer, holding the GL texture and
framebuffer names.  Modelled from the spec: the ffi crate is outside the
embedded sources; the spec's BackingStoreFramebuffer is
"{ texture id, framebuffer id, opaque user-data pointer }". -/
structure FlutterOpenGLBackingStoreFramebuffer where
  texture_id : Nat
  framebuffer_id : Nat
deriving DecidableEq, Repr

def FlutterOpenGLBackingStoreFramebuffer.new :
    FlutterOpenGLBackingStoreFramebuffer :=
  { texture_id := 0, framebuffer_id := 0 }

/-- `FlutterOpenGLFramebuffer` (engine ffi), built by
`FlutterOpenGLFramebuffer::new(format, user_data)`.  Modelled from the
spec (ffi crate outside the embedded sources); the framebuffer name
reported to the engine is the user-data's framebuffer id. -/
structure FlutterOpenGLFramebuffer where
  format : Nat
  user_data : FlutterOpenGLBackingStoreFramebuffer
deriving DecidableEq, Repr

def FlutterOpenGLFramebuffer.new (format : Nat)
    (user_data : FlutterOpenGLBackingStoreFramebuffer) :
    FlutterOpenGLFramebuffer :=
  { format := format, user_data := user_data }

/-- The OpenGL backing-store variants.  Modelled from the spec:
"tagged variants with a single supported case today"; the framebuffer
case is the one the handler produces and accepts. -/
inductive FlutterOpenGLBackingStore
  | Framebuffer (framebuffer : FlutterOpenGLFramebuffer)
  | Texture
deriving DecidableEq, Repr

/-- The backing-store description variants.  Modelled from the spec:
only the OpenGL description is supported by this embedder. -/
inductive FlutterBackingStoreDescription
  | OpenGL (store : FlutterOpenGLBackingStore)
  | Software
deriving DecidableEq, Repr

structure FlutterBackingStore where
  description : FlutterBackingStoreDescription
deriving DecidableEq, Repr

def FlutterBackingStore.new (description : FlutterBackingStoreDescription) :
    FlutterBackingStore :=
  { description := description }

/-- Spec-side discriminator: is this store's description the OpenGL
framebuffer variant (the single supported backing-store kind)? -/
def isOpenGLFramebufferStore (backing_store : FlutterBackingStore) : Bool :=
  match backing_store.description with
  | .OpenGL (.Framebuffer _) => true
  | _ => false

inductive CompositorPresentError
  | PresentFailed (msg : String)
deriving DecidableEq, Repr

inductive CompositorCreateBackingStoreError
  | CreateFailed (msg : String)
deriving DecidableEq, Repr

inductive CompositorCollectBackingStoreError
  | CollectFailed (msg : String)
deriving DecidableEq, Repr

/-- `FlutterSize` (f64 pair, modelled over ℚ). -/
structure FlutterSize where
  width : ℚ
  height : ℚ
deriving DecidableEq, Repr

structure FlutterPoint where
  x : ℚ
  y : ℚ
deriving DecidableEq, Repr

structure FlutterBackingStoreConfig where
  size : FlutterSize
deriving DecidableEq, Repr

/-- A present-view layer's content: a backing store or a platform view. -/
inductive FlutterLayerContent
  | BackingStore (backing_store : FlutterBackingStore)
  | PlatformView
deriving DecidableEq, Repr

/-- `layer.content.get_opengl_backing_store_framebuffer_name()`: the GL
framebuffer name when the content is an OpenGL framebuffer backing
store, `None` otherwise.  Modelled from the spec (ffi crate outside the
embedded sources). -/
def FlutterLayerContent.get_opengl_backing_store_framebuffer_name :
    FlutterLayerContent → Option Nat
  | .BackingStore backing_store =>
    match backing_store.description with
    | .OpenGL (.Framebuffer framebuffer) =>
      some framebuffer.user_data.framebuffer_id
    | _ => none
  | .PlatformView => none

structure FlutterLayer where
  content : FlutterLayerContent
  size : FlutterSize
  offset : FlutterPoint
deriving DecidableEq, Repr

structure FlutterPresentViewInfo where
  layers : List FlutterLayer
deriving DecidableEq, Repr

/-- Outcomes of the render collaborators during a compositor call:
the window frame callbacks and the shared `Context`. -/
structure RenderEnv where
  frameGenerated : Nat × Nat → Bool
  emptyFrameGenerated : Bool
  makeCurrentOk : Bool
  presentOk : Bool

/-- `SctkCompositorHandler`: of its fields only `format` matters to the
embedded logic (window, context and GL are modelled through `RenderEnv`
and the recorded call list).  `new` fixes `format = gl::RGBA8`. -/
structure SctkCompositorHandler where
  format : Nat
deriving DecidableEq, Repr

def SctkCompositorHandler.new : SctkCompositorHandler :=
  { format := gl_RGBA8 }

/-- `SctkCompositorHandler::clear`: the empty-frame path — empty-frame
callback, make current, clear to transparent black, present. -/
def SctkCompositorHandler.clear (_h : SctkCompositorHandler)
    (env : RenderEnv) : Except CompositorPresentError Unit × List GlCall :=
  if !env.emptyFrameGenerated then
    (Except.error (.PresentFailed "Empty frame generated callback failed"), [])
  else if !env.makeCurrentOk then
    (Except.error (.PresentFailed "Unable to make context current"), [])
  else
    let calls := [GlCall.clearColorCall,
      GlCall.clearCall
        (gl_COLOR_BUFFER_BIT ||| gl_DEPTH_BUFFER_BIT ||| gl_STENCIL_BUFFER_BIT)]
    if !env.presentOk then
      (Except.error (.PresentFailed "Present failed"), calls)
    else (Except.ok (), calls)

/-- `SctkCompositorHandler::present_view`.  With no layers it delegates
to `clear`.  Otherwise it works on the first layer (the
`debug_assert_eq!(info.layers.len(), 1)` and zero-offset asserts are
compiled out in release builds): resolve the source framebuffer name,
run the window's frame-generated check on the rounded layer size, make
the context current, disable the scissor test, bind the source as read
framebuffer and the window framebuffer 0 as draw framebuffer, blit, and
present. -/
def SctkCompositorHandler.present_view (_h : SctkCompositorHandler)
    (env : RenderEnv) (info : FlutterPresentViewInfo) :
    Except CompositorPresentError Unit × List GlCall :=
  match info.layers with
  | [] => _h.clear env
  | layer :: _rest =>
    match layer.content.get_opengl_backing_store_framebuffer_name with
    | none =>
      (Except.error
        (.PresentFailed "Unable to retrieve framebuffer name from layer"), [])
    | some source_id =>
      let frame_size := (f64_as_u32 (round layer.size.width),
        f64_as_u32 (round layer.size.height))
      if !env.frameGenerated frame_size then
        (Except.error (.PresentFailed "Frame generated callback failed"), [])
      else if !env.makeCurrentOk then
        (Except.error (.PresentFailed "Unable to make context current"), [])
      else
        let width := f64_as_i32 (round layer.size.width)
        let height := f64_as_i32 (round layer.size.height)
        let calls := [GlCall.disableCap gl_SCISSOR_TEST,
          GlCall.bindFramebufferTarget gl_READ_FRAMEBUFFER source_id,
          GlCall.bindFramebufferTarget gl_DRAW_FRAMEBUFFER
            WINDOW_FRAMEBUFFER_ID,
          GlCall.blitFramebuffer 0 0 width height 0 0 width height
            gl_COLOR_BUFFER_BIT gl_NEAREST]
        if !env.presentOk then
          (Except.error (.PresentFailed "Present failed"), calls)
        else (Except.ok (), calls)

/-- `SctkCompositorHandler::create_backing_store`: allocate one texture
and one framebuffer (their GL-generated names are inputs here), bind the
texture as color attachment 0 with nearest filtering, clamp-to-edge
wrapping and an RGBA8 image sized to the rounded config size, and return
the backing store; the source never fails. -/
def SctkCompositorHandler.create_backing_store (h : SctkCompositorHandler)
    (config : FlutterBackingStoreConfig) (texId fbId : Nat) :
    Except CompositorCreateBackingStoreError FlutterBackingStore
      × List GlCall :=
  let user_data : FlutterOpenGLBackingStoreFramebuffer :=
    { texture_id := texId, framebuffer_id := fbId }
  let framebuffer := FlutterOpenGLFramebuffer.new h.format user_data
  let opengl_backing_store := FlutterOpenGLBackingStore.Framebuffer framebuffer
  let description := FlutterBackingStoreDescription.OpenGL opengl_backing_store
  (Except.ok (FlutterBackingStore.new description),
   [GlCall.genTextures texId,
    GlCall.genFramebuffers fbId,
    GlCall.bindFramebufferTarget gl_FRAMEBUFFER fbId,
    GlCall.bindTexture gl_TEXTURE_2D texId,
    GlCall.texParameteri gl_TEXTURE_2D gl_TEXTURE_MIN_FILTER gl_NEAREST,
    GlCall.texParameteri gl_TEXTURE_2D gl_TEXTURE_MAG_FILTER gl_NEAREST,
    GlCall.texParameteri gl_TEXTURE_2D gl_TEXTURE_WRAP_S gl_CLAMP_TO_EDGE,
    GlCall.texParameteri gl_TEXTURE_2D gl_TEXTURE_WRAP_T gl_CLAMP_TO_EDGE,
    GlCall.texImage2D gl_TEXTURE_2D 0 gl_RGBA8
      (f64_as_i32 (round config.size.width))
      (f64_as_i32 (round config.size.height)) 0 gl_RGBA gl_UNSIGNED_BYTE,
    GlCall.bindTexture gl_TEXTURE_2D 0,
    GlCall.framebufferTexture2D gl_FRAMEBUFFER gl_COLOR_ATTACHMENT0
      gl_TEXTURE_2D texId 0])

/-- `SctkCompositorHandler::collect_backing_store`: the two `let-else`
checks reject any description that is not OpenGL, then any OpenGL store
that is not the framebuffer variant, before any GPU call; on the
framebuffer variant it deletes the framebuffer, deletes the texture and
releases the raw user-data. -/
def SctkCompositorHandler.collect_backing_store (_h : SctkCompositorHandler)
    (backing_store : FlutterBackingStore) :
    Except CompositorCollectBackingStoreError Unit × List GlCall :=
  match backing_store.description with
  | .OpenGL (.Framebuffer framebuffer) =>
    (Except.ok (),
     [GlCall.deleteFramebuffers framebuffer.user_data.framebuffer_id,
      GlCall.deleteTextures framebuffer.user_data.texture_id,
      GlCall.dropRawUserData])
  | .OpenGL .Texture =>
    (Except.error (.CollectFailed
      "Only OpenGL framebuffer backing stores are currently implemented"), [])
  | .Software =>
    (Except.error (.CollectFailed
      "Only OpenGL backing stores are currently implemented"), [])

/-- `SctkOpenGLHandler`: of its fields only the shared
`current_frame_size` slot matters to the embedded logic (window, context
and resource context are modelled through oracles). -/
structure SctkOpenGLHandler where
  current_frame_size : Nat × Nat
deriving DecidableEq, Repr

/-- Outcomes of the collaborators of `SctkOpenGLHandler::present`:
`window.on_frame_generated(size)` and `context.present()`. -/
structure OpenGLPresentEnv where
  frameGenerated : Nat × Nat → Bool
  contextPresentOk : Bool

/-- The externally visible steps of `SctkOpenGLHandler::present`. -/
inductive PresentEffect
  | frameGeneratedCheck (size : Nat × Nat)
  | bufferSwap
  | framePresentedNotify
deriving DecidableEq, Repr

/-- `SctkOpenGLHandler::present`: check the frame-generated callback on
the recorded frame size; on failure return `false` without touching the
context; otherwise attempt the buffer swap (`context.present()`); on
swap failure return `false`; otherwise notify `on_frame_presented` and
return `true`. -/
def SctkOpenGLHandler.present (h : SctkOpenGLHandler)
    (env : OpenGLPresentEnv) : Bool × List PresentEffect :=
  let frame_size := h.current_frame_size
  if !env.frameGenerated frame_size then
    (false, [PresentEffect.frameGeneratedCheck frame_size])
  else if !env.contextPresentOk then
    (false, [PresentEffect.frameGeneratedCheck frame_size,
      PresentEffect.bufferSwap])
  else
    (true, [PresentEffect.frameGeneratedCheck frame_size,
      PresentEffect.bufferSwap, PresentEffect.framePresentedNotify])

/-- `SctkOpenGLHandler::fbo_with_frame_info_callback`: record the
requested size in the shared slot and always return window framebuffer
id 0. -/
def SctkOpenGLHandler.fbo_with_frame_info_callback (_h : SctkOpenGLHandler)
    (size : Nat × Nat) : SctkOpenGLHandler × Nat :=
  ({ current_frame_size := size }, 0)

/-! ## flutter-engine: platform messages (channel/platform_message.rs)

Raw pointers are modelled as naturals with `0` for the null pointer. -/

/-- `PlatformMessageResponseHandle`: wraps the native response-handle
pointer. -/
structure PlatformMessageResponseHandle where
  handle : Nat
deriving DecidableEq, Repr

/-- `From<PlatformMessageResponseHandle> for *const
FlutterPlatformMessageResponseHandle`: read the pointer, set the
internal pointer to null (suppressing the drop warning, since ownership
has been transferred), and return the raw pointer. -/
def PlatformMessageResponseHandle.into_raw
    (h : PlatformMessageResponseHandle) :
    Nat × PlatformMessageResponseHandle :=
  (h.handle, { handle := 0 })

/-- What `Drop for PlatformMessageResponseHandle` does: log an error when
the internal pointer is non-null; it never panics. -/
structure DropOutcome where
  loggedError : Bool
  panicked : Bool
deriving DecidableEq, Repr

def PlatformMessageResponseHandle.drop
    (h : PlatformMessageResponseHandle) : DropOutcome :=
  { loggedError := h.handle != 0, panicked := false }

/-- The native-side registration created by
`FlutterPlatformMessageCreateResponseHandle`: an owned one-shot closure
boxed behind the opaque user-data pointer.  Modelled from the spec: the
native registration machinery is outside the embedded sources;
"reconstruct and invoke exactly once on callback". -/
structure ResponseRegistration (α : Type) where
  user_data : Option (List Nat → α)

/-- `response_handle_callback`: rebuild the boxed closure from the
user-data (`Box::from_raw` takes ownership, so the registration is
consumed) and invoke it on the delivered byte payload.  A delivery on an
already-consumed registration produces nothing. -/
def deliver_response {α : Type} (r : ResponseRegistration α)
    (data : List Nat) : ResponseRegistration α × Option α :=
  match r.user_data with
  | some callback => ({ user_data := none }, some (callback data))
  | none => (r, none)

/-- `PlatformMessage`: channel name (UTF-8 bytes), binary payload,
optional response handle. -/
structure PlatformMessage where
  channel : List Nat
  message : List Nat
  response_handle : Option PlatformMessageResponseHandle
deriving DecidableEq, Repr

/-- `FlutterPlatformMessage` (the native struct; `struct_size` omitted).
`response_handle` is a raw pointer, 0 for null. -/
structure FlutterPlatformMessage where
  channel : List Nat
  message : List Nat
  message_size : Nat
  response_handle : Nat
deriving DecidableEq, Repr

/-- `CString::new`: fails exactly when the byte string contains an
interior NUL byte. -/
def cstring_new (bytes : List Nat) : Option (List Nat) :=
  if 0 ∈ bytes then none else some bytes

/-- `From<PlatformMessage> for FlutterPlatformMessage`:
`CString::new(&*val.channel).unwrap()` — the unwrap panic (interior NUL)
is modelled as `none`; otherwise the message pointer/length are passed
through and `val.response_handle.take().map_or(ptr::null(), Into::into)`
maps an absent handle to the null pointer and otherwise transfers
ownership via `into_raw`. -/
def PlatformMessage.into_ffi (m : PlatformMessage) :
    Option FlutterPlatformMessage :=
  match cstring_new m.channel with
  | none => none
  | some c =>
    some { channel := c
         , message := m.message
         , message_size := m.message.length
         , response_handle :=
             match m.response_handle with
             | none => 0
             | some h => h.into_raw.1 }

/-! Concrete values used by the witnesses. -/

def sampleFramebuffer : FlutterOpenGLFramebuffer :=
  { format := gl_RGBA8
  , user_data := { texture_id := 11, framebuffer_id := 12 } }

def sampleFramebufferStore : FlutterBackingStore :=
  ⟨.OpenGL (.Framebuffer sampleFramebuffer)⟩

def sampleConfig : FlutterBackingStoreConfig := ⟨⟨500, 400⟩⟩

def sampleCreatedStore : FlutterBackingStore :=
  ⟨.OpenGL (.Framebuffer ⟨gl_RGBA8, ⟨1, 2⟩⟩)⟩

def sampleRenderEnv : RenderEnv :=
  { frameGenerated := fun _ => true
  , emptyFrameGenerated := true
  , makeCurrentOk := true
  , presentOk := true }

def sampleEnvReject : OpenGLPresentEnv :=
  { frameGenerated := fun _ => false, contextPresentOk := true }

def sampleEnvAccept : OpenGLPresentEnv :=
  { frameGenerated := fun _ => true, contextPresentOk := true }

def sampleGLHandler : SctkOpenGLHandler := ⟨(500, 400)⟩

def sampleMsgNul : PlatformMessage :=
  { channel := [102, 0, 111], message := [1], response_handle := none }

def sampleMsgOk : PlatformMessage :=
  { channel := [102, 111], message := [1, 2, 3], response_handle := none }

theorem present_false_of_not_canPresent (s : Context) (b : Bool)
    (h : canPresent s = false) : (s.present b).2 = false := by
  cases s with
  | mk hc cur =>
    simp [canPresent] at h
    cases hc with
    | false => simp [Context.present]
    | true => simp at h; simp [Context.present, h]

theorem canPresent_after_make_not_current (s : Context) (ok : Bool) :
    canPresent (s.make_not_current ok).1 = false := by
  revert s ok; decide

theorem canPresent_false_preserved (s : Context) (op : GlOp)
    (h : canPresent s = false)
    (hop : ∀ k, op = GlOp.makeCurrent k → (glStep s op).2 = false) :
    canPresent (glStep s op).1 = false := by
  cases op with
  | makeCurrent k =>
    have hr := hop k rfl
    cases s with
    | mk hc cur =>
      cases hc with
      | false => simp [glStep, Context.make_current, canPresent]
      | true =>
        cases k with
        | false => simpa [glStep, Context.make_current, canPresent] using h
        | true => simp [glStep, Context.make_current] at hr
  | makeNotCurrent k => exact canPresent_after_make_not_current s k
  | presentOp k =>
    cases s with
    | mk hc cur =>
      cases hc with
      | false => simp [glStep, Context.present, canPresent]
      | true => simpa [glStep, Context.present, canPresent] using h
  | resizeOp =>
    simpa [glStep, Context.resize] using h

theorem canPresent_false_run (tr : List GlOp) (s : Context)
    (h : canPresent s = false)
    (hn : noSuccessfulMakeCurrent s tr = true) :
    canPresent (glRun s tr) = false := by
  induction tr generalizing s with
  | nil => simpa [glRun] using h
  | cons op rest ih =>
    simp only [noSuccessfulMakeCurrent, Bool.and_eq_true] at hn
    refine ih (glStep s op).1 ?_ hn.2
    refine canPresent_false_preserved s op h ?_
    intro k hk
    subst hk
    simpa using hn.1

/-- C3: for every sequence of `make_current`/`make_not_current`/`present`
calls on a `Context`, `present` never returns `true` while the context is
not current: after a `make_not_current` call that was not followed by a
successful `make_current`, `present` returns `false` (whatever the
outcome of its own native swap call would be). -/
theorem present_returns_false_while_not_current
    (s0 : Context) (tr1 tr2 : List GlOp) (ok b : Bool)
    (h : noSuccessfulMakeCurrent
      (glStep (glRun s0 tr1) (GlOp.makeNotCurrent ok)).1 tr2 = true) :
    ((glRun (glStep (glRun s0 tr1) (GlOp.makeNotCurrent ok)).1 tr2).present b).2
      = false :=
  present_false_of_not_canPresent _ b
    (canPresent_false_run tr2 _
      (canPresent_after_make_not_current (glRun s0 tr1) ok) h)

/-- Witness for C3 at a concrete trace: make current, make not current,
then a failed `present`, followed by another `present` attempt. -/
theorem present_returns_false_while_not_current_witness :
    noSuccessfulMakeCurrent
      (glStep (glRun ⟨true, true⟩ [GlOp.makeCurrent true])
        (GlOp.makeNotCurrent true)).1 [GlOp.presentOp true] = true ∧
    ((glRun (glStep (glRun ⟨true, true⟩ [GlOp.makeCurrent true])
        (GlOp.makeNotCurrent true)).1 [GlOp.presentOp true]).present true).2
      = false :=
  ⟨by decide,
   present_returns_false_while_not_current ⟨true, true⟩
     [GlOp.makeCurrent true] [GlOp.presentOp true] true true (by decide)⟩

/-- C4 counterexample: a `make_not_current` call on a `Context` that holds
a context, whose native release fails, leaves the context slot empty (the
taken context is dropped by the `if let Ok` and never restored), and the
subsequent `make_current` fails even though its own native call would
succeed — precisely because the slot was left empty. -/
theorem make_not_current_restore_counterexample :
    (Context.make_not_current ⟨true, true⟩ false).1.hasContext = false ∧
    ((Context.make_not_current ⟨true, true⟩ false).1.make_current true).2
      = false := by
  decide

/-- C4 (amended): after every call to `make_not_current` that returns
`true`, the binding is released (the context is no longer current), the
context object is restored internally (the slot is non-empty), and a
subsequent `make_current` whose native call succeeds returns `true`. -/
theorem make_not_current_success_restores (s : Context) (ok : Bool)
    (h : (s.make_not_current ok).2 = true) :
    (s.make_not_current ok).1.hasContext = true ∧
    (s.make_not_current ok).1.isCurrent = false ∧
    ((s.make_not_current ok).1.make_current true).2 = true := by
  rcases s with ⟨hc, cur⟩
  cases hc <;> cases ok <;>
    simp_all [Context.make_not_current, Context.make_current]

/-- Witness for the amended C4 at a concrete state. -/
theorem make_not_current_success_restores_witness :
    (Context.make_not_current ⟨true, true⟩ true).2 = true ∧
    ((Context.make_not_current ⟨true, true⟩ true).1.hasContext = true ∧
     (Context.make_not_current ⟨true, true⟩ true).1.isCurrent = false ∧
     ((Context.make_not_current ⟨true, true⟩ true).1.make_current true).2
       = true) :=
  ⟨by decide, make_not_current_success_restores ⟨true, true⟩ true (by decide)⟩

theorem notify_display_update_fields (s : SctkApplicationState) :
    (s.notify_display_update).windows = s.windows ∧
    (s.notify_display_update).startup_synchronizer = s.startup_synchronizer ∧
    (s.notify_display_update).forwardedConfigures = s.forwardedConfigures := by
  unfold SctkApplicationState.notify_display_update
  split <;> simp

theorem maybe_send_startup_fields (s : SctkApplicationState) :
    (s.maybe_send_startup_pending_configure).startup_synchronizer.is_engine_running
      = true ∧
    (s.maybe_send_startup_pending_configure).startup_synchronizer.pending_configure
      = none ∧
    (s.maybe_send_startup_pending_configure).displayUpdates
      = s.displayUpdates ++ [FlutterEngineDisplaysUpdateType.Startup] ∧
    (s.maybe_send_startup_pending_configure).windows = s.windows ∧
    (s.maybe_send_startup_pending_configure).forwardedConfigures
      = (match s.startup_synchronizer.pending_configure, s.windows.getLast? with
         | some (c, serial), some wid =>
           s.forwardedConfigures ++ [(wid, c, serial)]
         | some _, none => s.forwardedConfigures
         | none, _ => s.forwardedConfigures) := by
  unfold SctkApplicationState.maybe_send_startup_pending_configure
    SctkApplicationState.notify_display_update
  cases hp : s.startup_synchronizer.pending_configure with
  | none => simp [hp]
  | some p =>
    obtain ⟨c, serial⟩ := p
    cases hw : s.windows.getLast? <;> simp [hp, hw]

theorem configure_fields (s : SctkApplicationState) (xdgToplevelId : Nat)
    (c : WindowConfigure) (serial : Nat) :
    (s.configure xdgToplevelId c serial).displayUpdates = s.displayUpdates ∧
    (s.configure xdgToplevelId c serial).windows = s.windows ∧
    (s.configure xdgToplevelId c serial).startup_synchronizer.is_engine_running
      = s.startup_synchronizer.is_engine_running := by
  unfold SctkApplicationState.configure
  split
  · split <;> simp [ImplicitWindowStartupSynchronizer.set_pending_configure]
  · simp

theorem appStep_engine_running_mono (s : SctkApplicationState) (op : AppOp)
    (h : s.startup_synchronizer.is_engine_running = true) :
    (appStep s op).startup_synchronizer.is_engine_running = true := by
  cases op with
  | configureEvent xdgToplevelId c serial =>
    rw [appStep, (configure_fields s xdgToplevelId c serial).2.2]
    exact h
  | engineStarted => exact (maybe_send_startup_fields s).1
  | newOutput =>
    rw [appStep, SctkApplicationState.new_output,
      (notify_display_update_fields s).2.1]
    exact h
  | updateOutput =>
    rw [appStep, SctkApplicationState.update_output,
      (notify_display_update_fields s).2.1]
    exact h
  | outputDestroyed =>
    rw [appStep, SctkApplicationState.output_destroyed,
      (notify_display_update_fields s).2.1]
    exact h

theorem appRun_engine_running_mono (ops : List AppOp)
    (s : SctkApplicationState)
    (h : s.startup_synchronizer.is_engine_running = true) :
    (appRun s ops).startup_synchronizer.is_engine_running = true := by
  induction ops generalizing s with
  | nil => simpa [appRun] using h
  | cons op rest ih =>
    exact ih (appStep s op) (appStep_engine_running_mono s op h)

/-- C1: a configure event that arrives for a known window while the
engine-running flag is `false` is not forwarded to any window; it is
stored as the single pending configure together with its serial,
overwriting any previously buffered configure (the `Option` slot holds at
most one configure — the most recent). -/
theorem configure_buffered_while_engine_not_running
    (s : SctkApplicationState) (xdgToplevelId : Nat) (c : WindowConfigure)
    (serial : Nat)
    (hrun : s.startup_synchronizer.is_engine_running = false)
    (hwin : xdgToplevelId ∈ s.windows) :
    (s.configure xdgToplevelId c serial).forwardedConfigures
      = s.forwardedConfigures ∧
    (s.configure xdgToplevelId c serial).startup_synchronizer.pending_configure
      = some (c, serial) := by
  unfold SctkApplicationState.configure
  simp [hwin, hrun, ImplicitWindowStartupSynchronizer.set_pending_configure]

/-- Witness for C1: the buffered configure overwrites an earlier one. -/
theorem configure_buffered_while_engine_not_running_witness :
    (sampleStateEarlierPending.startup_synchronizer.is_engine_running = false
      ∧ 5 ∈ sampleStateEarlierPending.windows)
    ∧ ((sampleStateEarlierPending.configure 5 ⟨some 500, some 400⟩
          7).forwardedConfigures = []
      ∧ (sampleStateEarlierPending.configure 5 ⟨some 500, some 400⟩
          7).startup_synchronizer.pending_configure
        = some (⟨some 500, some 400⟩, 7)) :=
  ⟨⟨by decide, by decide⟩,
   configure_buffered_while_engine_not_running sampleStateEarlierPending 5
     ⟨some 500, some 400⟩ 7 (by decide) (by decide)⟩

/-- C2: when the engine transitions to running,
`maybe_send_startup_pending_configure` sets the engine-running flag,
appends exactly one Startup display-update notification, empties the
pending-configure slot, forwards exactly the buffered configure (with its
serial) to the implicit window when one was buffered and forwards nothing
otherwise, and the flag stays `true` under every later event sequence. -/
theorem engine_start_transition_effects (s : SctkApplicationState)
    (hwin : s.windows ≠ []) :
    (s.maybe_send_startup_pending_configure).startup_synchronizer.is_engine_running
      = true ∧
    (s.maybe_send_startup_pending_configure).displayUpdates
      = s.displayUpdates ++ [FlutterEngineDisplaysUpdateType.Startup] ∧
    (s.maybe_send_startup_pending_configure).startup_synchronizer.pending_configure
      = none ∧
    (∀ c serial, s.startup_synchronizer.pending_configure = some (c, serial) →
      ∃ wid, s.windows.getLast? = some wid ∧
        (s.maybe_send_startup_pending_configure).forwardedConfigures
          = s.forwardedConfigures ++ [(wid, c, serial)]) ∧
    (s.startup_synchronizer.pending_configure = none →
      (s.maybe_send_startup_pending_configure).forwardedConfigures
        = s.forwardedConfigures) ∧
    (∀ ops : List AppOp,
      (appRun s.maybe_send_startup_pending_configure ops).startup_synchronizer.is_engine_running
        = true) := by
  obtain ⟨h1, h2, h3, _h4, h5⟩ := maybe_send_startup_fields s
  refine ⟨h1, h3, h2, ?_, ?_, ?_⟩
  · intro c serial hp
    cases hw : s.windows.getLast? with
    | none => exact absurd (List.getLast?_eq_none_iff.mp hw) hwin
    | some wid =>
      refine ⟨wid, rfl, ?_⟩
      rw [h5, hp, hw]
  · intro hp
    rw [h5, hp]
  · intro ops
    exact appRun_engine_running_mono ops _ h1

/-- Witness for C2: the spec scenario — configure(500x400, serial 7)
buffered, engine starts, exactly one configure and one Startup
notification are emitted. -/
theorem engine_start_transition_effects_witness :
    sampleStatePending500x400.windows ≠ []
    ∧ (sampleStatePending500x400.maybe_send_startup_pending_configure.startup_synchronizer.is_engine_running
        = true
      ∧ sampleStatePending500x400.maybe_send_startup_pending_configure.displayUpdates
        = sampleStatePending500x400.displayUpdates
            ++ [FlutterEngineDisplaysUpdateType.Startup]
      ∧ sampleStatePending500x400.maybe_send_startup_pending_configure.startup_synchronizer.pending_configure
        = none
      ∧ (∀ c serial,
          sampleStatePending500x400.startup_synchronizer.pending_configure
            = some (c, serial) →
          ∃ wid, sampleStatePending500x400.windows.getLast? = some wid ∧
            sampleStatePending500x400.maybe_send_startup_pending_configure.forwardedConfigures
              = sampleStatePending500x400.forwardedConfigures
                  ++ [(wid, c, serial)])
      ∧ (sampleStatePending500x400.startup_synchronizer.pending_configure
          = none →
          sampleStatePending500x400.maybe_send_startup_pending_configure.forwardedConfigures
            = sampleStatePending500x400.forwardedConfigures)
      ∧ (∀ ops : List AppOp,
          (appRun sampleStatePending500x400.maybe_send_startup_pending_configure
            ops).startup_synchronizer.is_engine_running = true)) :=
  ⟨by decide,
   engine_start_transition_effects sampleStatePending500x400 (by decide)⟩

theorem appStep_displayUpdates_startup (s : SctkApplicationState) (op : AppOp)
    (h : ∀ t ∈ s.displayUpdates, t = FlutterEngineDisplaysUpdateType.Startup) :
    ∀ t ∈ (appStep s op).displayUpdates,
      t = FlutterEngineDisplaysUpdateType.Startup := by
  have hnotify : ∀ u : SctkApplicationState,
      (∀ t ∈ u.displayUpdates, t = FlutterEngineDisplaysUpdateType.Startup) →
      ∀ t ∈ (u.notify_display_update).displayUpdates,
        t = FlutterEngineDisplaysUpdateType.Startup := by
    intro u hu t ht
    unfold SctkApplicationState.notify_display_update at ht
    by_cases hr : u.startup_synchronizer.is_engine_running = true
    · simp [hr] at ht
      rcases ht with h1 | h1
      · exact hu t h1
      · exact h1
    · simp [hr] at ht
      exact hu t ht
  cases op with
  | configureEvent xdgToplevelId c serial =>
    intro t ht
    rw [appStep, (configure_fields s xdgToplevelId c serial).1] at ht
    exact h t ht
  | engineStarted =>
    intro t ht
    rw [appStep, (maybe_send_startup_fields s).2.2.1] at ht
    rcases List.mem_append.mp ht with h1 | h1
    · exact h t h1
    · simpa using h1
  | newOutput => exact hnotify s h
  | updateOutput => exact hnotify s h
  | outputDestroyed => exact hnotify s h

/-- C9: starting from the initial application state, every display-update
notification ever delivered to the engine — including those triggered by
output additions, updates and removals after the engine is running —
carries the `Startup` update type. -/
theorem display_updates_always_startup (implicitWindowId : Nat)
    (ops : List AppOp) (t : FlutterEngineDisplaysUpdateType)
    (h : t ∈ (appRun (initialAppState implicitWindowId) ops).displayUpdates) :
    t = FlutterEngineDisplaysUpdateType.Startup := by
  have main : ∀ (l : List AppOp) (s : SctkApplicationState),
      (∀ u ∈ s.displayUpdates, u = FlutterEngineDisplaysUpdateType.Startup) →
      ∀ u ∈ (appRun s l).displayUpdates,
        u = FlutterEngineDisplaysUpdateType.Startup := by
    intro l
    induction l with
    | nil => intro s hs; simpa [appRun] using hs
    | cons op rest ih =>
      intro s hs
      exact ih (appStep s op) (appStep_displayUpdates_startup s op hs)
  exact main ops (initialAppState implicitWindowId)
    (by simp [initialAppState]) t h

theorem f64_as_i32_eq_self (x : ℤ) (h0 : 0 ≤ x) (h1 : x < 2 ^ 31) :
    f64_as_i32 x = x := by
  unfold f64_as_i32
  omega

/-- C5: `collect_backing_store` returns a collection error and performs
no GPU calls whenever the store's description is not the OpenGL
framebuffer variant; on an OpenGL framebuffer store it deletes the
framebuffer, deletes the texture, releases the raw user-data, and
returns `Ok`. -/
theorem collect_backing_store_rejects_unsupported
    (h : SctkCompositorHandler) (bs : FlutterBackingStore) :
    (isOpenGLFramebufferStore bs = false →
      (∃ msg, (h.collect_backing_store bs).1
        = Except.error (CompositorCollectBackingStoreError.CollectFailed msg))
      ∧ (h.collect_backing_store bs).2 = []) ∧
    (∀ fb, bs.description
        = FlutterBackingStoreDescription.OpenGL
            (FlutterOpenGLBackingStore.Framebuffer fb) →
      (h.collect_backing_store bs).1 = Except.ok () ∧
      (h.collect_backing_store bs).2 =
        [GlCall.deleteFramebuffers fb.user_data.framebuffer_id,
         GlCall.deleteTextures fb.user_data.texture_id,
         GlCall.dropRawUserData]) := by
  obtain ⟨desc⟩ := bs
  cases desc with
  | OpenGL store =>
    cases store with
    | Framebuffer fb =>
      constructor
      · intro hfalse
        simp [isOpenGLFramebufferStore] at hfalse
      · intro fb2 heq
        simp only [FlutterBackingStoreDescription.OpenGL.injEq,
          FlutterOpenGLBackingStore.Framebuffer.injEq] at heq
        subst heq
        exact ⟨rfl, rfl⟩
    | Texture =>
      constructor
      · intro _
        exact ⟨⟨_, rfl⟩, rfl⟩
      · intro fb2 heq
        simp at heq
  | Software =>
    constructor
    · intro _
      exact ⟨⟨_, rfl⟩, rfl⟩
    · intro fb2 heq
      simp at heq

/-- Witness for C5: a software store is rejected without GPU calls; an
OpenGL framebuffer store is collected with the two deletions and the
user-data release. -/
theorem collect_backing_store_rejects_unsupported_witness :
    (isOpenGLFramebufferStore ⟨FlutterBackingStoreDescription.Software⟩ = false
      ∧ ((∃ msg, (SctkCompositorHandler.new.collect_backing_store
            ⟨FlutterBackingStoreDescription.Software⟩).1
          = Except.error
              (CompositorCollectBackingStoreError.CollectFailed msg))
        ∧ (SctkCompositorHandler.new.collect_backing_store
            ⟨FlutterBackingStoreDescription.Software⟩).2 = []))
    ∧ (sampleFramebufferStore.description
        = FlutterBackingStoreDescription.OpenGL
            (FlutterOpenGLBackingStore.Framebuffer sampleFramebuffer)
      ∧ ((SctkCompositorHandler.new.collect_backing_store
            sampleFramebufferStore).1 = Except.ok ()
        ∧ (SctkCompositorHandler.new.collect_backing_store
            sampleFramebufferStore).2 =
          [GlCall.deleteFramebuffers sampleFramebuffer.user_data.framebuffer_id,
           GlCall.deleteTextures sampleFramebuffer.user_data.texture_id,
           GlCall.dropRawUserData])) :=
  ⟨⟨by decide,
    (collect_backing_store_rejects_unsupported SctkCompositorHandler.new
      ⟨FlutterBackingStoreDescription.Software⟩).1 (by decide)⟩,
   ⟨rfl,
    (collect_backing_store_rejects_unsupported SctkCompositorHandler.new
      sampleFramebufferStore).2 sampleFramebuffer rfl⟩⟩

/-- C6: a backing store created from a config of size (W, H), presented
as the single layer of a `present_view` whose layer carries the store and
the config size, yields (once the frame-generated check and make-current
succeed, for sizes whose roundings fit an i32) exactly a scissor-test
disable, a read bind of the store's framebuffer, a draw bind of window
framebuffer 0, and a blit whose source and destination rectangles are
width = round W, height = round H at offset (0, 0). -/
theorem created_backing_store_blit_exact
    (config : FlutterBackingStoreConfig) (texId fbId : Nat)
    (bs : FlutterBackingStore) (env : RenderEnv) (offset : FlutterPoint)
    (hbs : (SctkCompositorHandler.new.create_backing_store config texId
      fbId).1 = Except.ok bs)
    (hW0 : 0 ≤ round config.size.width)
    (hW1 : round config.size.width < 2 ^ 31)
    (hH0 : 0 ≤ round config.size.height)
    (hH1 : round config.size.height < 2 ^ 31)
    (hfg : env.frameGenerated (f64_as_u32 (round config.size.width),
      f64_as_u32 (round config.size.height)) = true)
    (hmc : env.makeCurrentOk = true) :
    (SctkCompositorHandler.new.present_view env
      ⟨[{ content := FlutterLayerContent.BackingStore bs
        , size := config.size, offset := offset }]⟩).2
      = [GlCall.disableCap gl_SCISSOR_TEST,
         GlCall.bindFramebufferTarget gl_READ_FRAMEBUFFER fbId,
         GlCall.bindFramebufferTarget gl_DRAW_FRAMEBUFFER 0,
         GlCall.blitFramebuffer 0 0 (round config.size.width)
           (round config.size.height) 0 0 (round config.size.width)
           (round config.size.height) gl_COLOR_BUFFER_BIT gl_NEAREST] := by
  have hWi := f64_as_i32_eq_self _ hW0 hW1
  have hHi := f64_as_i32_eq_self _ hH0 hH1
  simp only [SctkCompositorHandler.create_backing_store,
    FlutterOpenGLFramebuffer.new, FlutterBackingStore.new,
    Except.ok.injEq] at hbs
  subst hbs
  cases hp : env.presentOk <;>
    simp [SctkCompositorHandler.present_view,
      FlutterLayerContent.get_opengl_backing_store_framebuffer_name,
      hfg, hmc, hp, hWi, hHi, WINDOW_FRAMEBUFFER_ID]

/-- Witness for C6 at config size 500x400 with GL names 1 and 2. -/
theorem created_backing_store_blit_exact_witness :
    ((SctkCompositorHandler.new.create_backing_store sampleConfig 1 2).1
        = Except.ok sampleCreatedStore
      ∧ 0 ≤ round sampleConfig.size.width
      ∧ round sampleConfig.size.width < 2 ^ 31
      ∧ 0 ≤ round sampleConfig.size.height
      ∧ round sampleConfig.size.height < 2 ^ 31
      ∧ sampleRenderEnv.frameGenerated
          (f64_as_u32 (round sampleConfig.size.width),
           f64_as_u32 (round sampleConfig.size.height)) = true
      ∧ sampleRenderEnv.makeCurrentOk = true)
    ∧ (SctkCompositorHandler.new.present_view sampleRenderEnv
        ⟨[{ content := FlutterLayerContent.BackingStore sampleCreatedStore
          , size := sampleConfig.size, offset := ⟨0, 0⟩ }]⟩).2
      = [GlCall.disableCap gl_SCISSOR_TEST,
         GlCall.bindFramebufferTarget gl_READ_FRAMEBUFFER 2,
         GlCall.bindFramebufferTarget gl_DRAW_FRAMEBUFFER 0,
         GlCall.blitFramebuffer 0 0 (round sampleConfig.size.width)
           (round sampleConfig.size.height) 0 0
           (round sampleConfig.size.width)
           (round sampleConfig.size.height)
           gl_COLOR_BUFFER_BIT gl_NEAREST] :=
  ⟨⟨rfl, by simp [sampleConfig], by simp [sampleConfig],
    by simp [sampleConfig], by simp [sampleConfig], rfl, rfl⟩,
   created_backing_store_blit_exact sampleConfig 1 2 sampleCreatedStore
     sampleRenderEnv ⟨0, 0⟩ rfl (by simp [sampleConfig])
     (by simp [sampleConfig]) (by simp [sampleConfig])
     (by simp [sampleConfig]) rfl rfl⟩

/-- C7: `SctkOpenGLHandler::present` always runs the frame-generated
check on the recorded frame size first; when the check fails it returns
`false` with no buffer swap and no frame-presented notification; a swap
occurs only after the check succeeds, and the notification only after
both the check and the swap succeed. -/
theorem present_gated_on_frame_generated (h : SctkOpenGLHandler)
    (env : OpenGLPresentEnv) :
    (h.present env).2.head?
      = some (PresentEffect.frameGeneratedCheck h.current_frame_size) ∧
    (env.frameGenerated h.current_frame_size = false →
      (h.present env).1 = false ∧
      PresentEffect.bufferSwap ∉ (h.present env).2 ∧
      PresentEffect.framePresentedNotify ∉ (h.present env).2) ∧
    (PresentEffect.bufferSwap ∈ (h.present env).2 →
      env.frameGenerated h.current_frame_size = true) ∧
    (PresentEffect.framePresentedNotify ∈ (h.present env).2 →
      env.frameGenerated h.current_frame_size = true
        ∧ env.contextPresentOk = true) := by
  cases hfg : env.frameGenerated h.current_frame_size <;>
    cases hcp : env.contextPresentOk <;>
      simp [SctkOpenGLHandler.present, hfg, hcp]

/-- Witness for C7: a rejecting frame-generated check drops the frame
without a swap; a notification implies the check and the swap passed. -/
theorem present_gated_on_frame_generated_witness :
    (sampleEnvReject.frameGenerated sampleGLHandler.current_frame_size
        = false
      ∧ ((sampleGLHandler.present sampleEnvReject).1 = false ∧
        PresentEffect.bufferSwap ∉ (sampleGLHandler.present sampleEnvReject).2
          ∧
        PresentEffect.framePresentedNotify
          ∉ (sampleGLHandler.present sampleEnvReject).2))
    ∧ (PresentEffect.framePresentedNotify
        ∈ (sampleGLHandler.present sampleEnvAccept).2
      ∧ (sampleEnvAccept.frameGenerated sampleGLHandler.current_frame_size
          = true
        ∧ sampleEnvAccept.contextPresentOk = true)) :=
  ⟨⟨rfl,
    (present_gated_on_frame_generated sampleGLHandler sampleEnvReject).2.1
      rfl⟩,
   ⟨by decide,
    (present_gated_on_frame_generated sampleGLHandler sampleEnvAccept).2.2.2
      (by decide)⟩⟩

/-- C8: a response delivered by the native layer invokes the registered
callback exactly once with the delivered byte payload (the registration
is consumed, so a second delivery produces nothing); dropping a handle
whose internal pointer is non-null logs an error and does not panic;
converting the handle into its raw native pointer nulls the internal
pointer, so a drop after the explicit ownership transfer logs nothing. -/
theorem response_handle_one_shot {α : Type} (callback : List Nat → α)
    (data data2 : List Nat) (h : PlatformMessageResponseHandle)
    (hnn : h.handle ≠ 0) :
    deliver_response ⟨some callback⟩ data
      = (⟨none⟩, some (callback data)) ∧
    (deliver_response (deliver_response ⟨some callback⟩ data).1 data2).2
      = none ∧
    h.drop = ⟨true, false⟩ ∧
    h.into_raw.2.handle = 0 ∧
    h.into_raw.2.drop = ⟨false, false⟩ := by
  refine ⟨rfl, rfl, ?_, rfl, rfl⟩
  simp [PlatformMessageResponseHandle.drop, hnn]

/-- Witness for C8 with a concrete callback and a non-null handle. -/
theorem response_handle_one_shot_witness :
    (⟨7⟩ : PlatformMessageResponseHandle).handle ≠ 0 ∧
    (deliver_response ⟨some (fun l : List Nat => l.length)⟩ [1, 2]
        = (⟨none⟩, some ((fun l : List Nat => l.length) [1, 2])) ∧
      (deliver_response
        (deliver_response ⟨some (fun l : List Nat => l.length)⟩ [1, 2]).1
        [3]).2 = none ∧
      (⟨7⟩ : PlatformMessageResponseHandle).drop = ⟨true, false⟩ ∧
      (⟨7⟩ : PlatformMessageResponseHandle).into_raw.2.handle = 0 ∧
      (⟨7⟩ : PlatformMessageResponseHandle).into_raw.2.drop
        = ⟨false, false⟩) :=
  ⟨by decide,
   response_handle_one_shot (fun l : List Nat => l.length) [1, 2] [3] ⟨7⟩
     (by decide)⟩

/-- C10: converting a `PlatformMessage` to the native struct panics
(modelled: returns `none`) exactly when the channel bytes contain an
interior NUL; otherwise it succeeds, passes channel and payload through,
and maps an absent response handle to the null pointer. -/
theorem platform_message_conversion (m : PlatformMessage) :
    (0 ∈ m.channel → m.into_ffi = none) ∧
    (0 ∉ m.channel →
      ∃ fm, m.into_ffi = some fm ∧ fm.channel = m.channel ∧
        fm.message = m.message ∧ fm.message_size = m.message.length ∧
        (m.response_handle = none → fm.response_handle = 0)) := by
  constructor
  · intro hmem
    simp [PlatformMessage.into_ffi, cstring_new, hmem]
  · intro hmem
    cases hr : m.response_handle with
    | none =>
      refine ⟨⟨m.channel, m.message, m.message.length, 0⟩, ?_, rfl, rfl, rfl,
        fun _ => rfl⟩
      simp [PlatformMessage.into_ffi, cstring_new, hmem, hr]
    | some hdl =>
      refine ⟨⟨m.channel, m.message, m.message.length, hdl.into_raw.1⟩, ?_,
        rfl, rfl, rfl, ?_⟩
      · simp [PlatformMessage.into_ffi, cstring_new, hmem, hr]
      · intro hcontra
        cases hcontra

/-- Witness for C10: a channel with an interior NUL is rejected; a clean
channel with no response handle converts with a null handle pointer. -/
theorem platform_message_conversion_witness :
    ((0 ∈ sampleMsgNul.channel ∧ sampleMsgNul.into_ffi = none) ∧
      (0 ∉ sampleMsgOk.channel)) ∧
    (∃ fm, sampleMsgOk.into_ffi = some fm ∧ fm.channel = sampleMsgOk.channel
      ∧ fm.message = sampleMsgOk.message
      ∧ fm.message_size = sampleMsgOk.message.length
      ∧ (sampleMsgOk.response_handle = none → fm.response_handle = 0)) :=
  ⟨⟨⟨by decide, (platform_message_conversion sampleMsgNul).1 (by decide)⟩,
    by decide⟩,
   (platform_message_conversion sampleMsgOk).2 (by decide)⟩

/-- Witness for C9: an output update after engine start produces a
`Startup`-typed notification. -/
theorem display_updates_always_startup_witness :
    FlutterEngineDisplaysUpdateType.Startup ∈
      (appRun (initialAppState 5)
        [AppOp.engineStarted, AppOp.updateOutput]).displayUpdates ∧
    FlutterEngineDisplaysUpdateType.Startup
      = FlutterEngineDisplaysUpdateType.Startup :=
  ⟨by decide,
   display_updates_always_startup 5 [AppOp.engineStarted, AppOp.updateOutput]
     FlutterEngineDisplaysUpdateType.Startup (by decide)⟩

end FlutterRS
